import Mathlib

/-!
Shallow embedding of packages/superset-ui-connection/src/SupersetClient.ts.

The TypeScript module defines a class SupersetClient (configuration, CSRF
token lifecycle, GET/POST dispatch) plus a module-level singleton registry
(PublicAPI).  JavaScript promises are modelled by promise identifiers
(natural numbers) allocated by the client state, together with explicit
settled outcomes of type Except ErrPayload (Option String); the asynchronous
methods are split into their synchronous phase (everything that runs before
the first suspension point) and an explicit continuation applied to the
settled outcome of the awaited promise.  The transport collaborator callApi
and the types module are imported by the source file but are not part of the
repository slice under verification; their interface is modelled from the
specification (section 6): a request-description record and a response
record with a parsed JSON body, with failures carried as opaque payloads.
-/

namespace SupersetClientModel

/-- Header maps, as in the TypeScript Headers objects: association lists of
string keys and string values, with object-spread update semantics. -/
abbrev Headers := List (String × String)

/-- Reading a property of a headers object (first binding wins; the merge
operations below keep keys unique). -/
def getHeader (hs : Headers) (k : String) : Option String :=
  (hs.find? (fun p => p.1 == k)).map (fun p => p.2)

/-- Object-spread merge as in the idiom with two spreads: entries of b
override entries of a with the same key. -/
def mergeHeaders (a b : Headers) : Headers :=
  a.filter (fun p => !(b.any (fun q => q.1 == p.1))) ++ b

/-- Object-spread update of a single key, as in spreading an object and then
writing one property. -/
def setHeader (hs : Headers) (k v : String) : Headers :=
  mergeHeaders hs [(k, v)]

/-- JavaScript truthy-or on an optional string against a string default,
modelling the pattern a or-else b on strings: undefined and the empty string
are falsy. -/
def jsOrStr (o : Option String) (d : String) : String :=
  match o with
  | some s => if s = "" then d else s
  | none => d

/-- JavaScript truthy-or where the default may itself be undefined. -/
def jsOrOpt (o d : Option String) : Option String :=
  match o with
  | some s => if s = "" then d else some s
  | none => d

/-- JavaScript truthy-or on optional numbers: undefined and 0 are falsy. -/
def jsOrNat (o d : Option Nat) : Option Nat :=
  match o with
  | some n => if n = 0 then d else some n
  | none => d

/-- Whether the last character of a string is a slash, modelling the
comparison of slice of minus one with a slash character. -/
def lastCharIsSlash (s : String) : Bool := s.data.getLast? == some '/'

/-- Whether the first character of a string is a slash, modelling indexing
at position zero. -/
def firstCharIsSlash (s : String) : Bool :=
  match s.data with
  | '/' :: _ => true
  | _ => false

/-- Rejection payloads carried by promises.  The errorObj constructor is a
JavaScript object literal with a single error field holding a message.
Modelled from the spec: the transport collaborator callApi is outside the
verified slice and, per section 6, fails with a network or timeout error of
an unspecified shape; such foreign payloads are carried by the second
constructor. -/
inductive ErrPayload where
  | errorObj (msg : String)
  | other (v : String)
deriving DecidableEq, Repr

/-- Whether a payload is an object literal of the form with a single error
field, the shape produced by this module itself. -/
def ErrPayload.isErrorObj : ErrPayload → Bool
  | .errorObj _ => true
  | .other _ => false

/-- The ClientConfig interface (lines 16 to 24 of the source): every field
optional; none models an absent or undefined property. -/
structure ClientConfig where
  credentials : Option String := none
  csrfToken : Option String := none
  headers : Headers := []
  host : Option String := none
  protocol : Option String := none
  mode : Option String := none
  timeout : Option Nat := none
deriving DecidableEq, Repr

/-- The mutable fields of a SupersetClient instance (lines 26 to 34).  The
csrfPromise field holds the identifier of the most recent authentication
promise; nextPromiseId is the allocator for fresh promise identifiers, so a
promise identifier below nextPromiseId refers to a promise that was actually
created by the constructor or by a token fetch. -/
structure ClientState where
  credentials : Option String := none
  csrfToken : Option String := none
  csrfPromiseId : Nat := 0
  protocol : String := "http:"
  host : String := "localhost"
  headers : Headers := []
  mode : String := "same-origin"
  timeout : Option Nat := none
  nextPromiseId : Nat := 1
deriving DecidableEq, Repr

/-- The RequestConfig record accepted by get and post; fields not supplied
by a caller are undefined.  Opaque foreign values (credentials mode, parse
method, abort signal) are carried as strings. -/
structure RequestConfig where
  body : Option String := none
  credentials : Option String := none
  headers : Headers := []
  host : Option String := none
  endpoint : Option String := none
  mode : Option String := none
  parseMethod : Option String := none
  signal : Option String := none
  timeout : Option Nat := none
  url : Option String := none
  postPayload : Option String := none
  stringify : Option Bool := none
deriving DecidableEq, Repr

/-- The argument record passed to the transport collaborator callApi.
Modelled from the spec (section 6): url, method, headers, body or payload,
mode, credentials policy, timeout, stringify flag, cancellation signal and
response-parsing mode. -/
structure CallApiArgs where
  body : Option String := none
  credentials : Option String := none
  headers : Headers := []
  method : String := "GET"
  mode : String := "same-origin"
  parseMethod : Option String := none
  signal : Option String := none
  stringify : Option Bool := none
  timeout : Option Nat := none
  postPayload : Option String := none
  url : String := ""
deriving DecidableEq, Repr

/-- A transport response as seen by the token-fetch continuation.  Modelled
from the spec (section 6): status, headers, and a parsed body; the json
field is some list of string fields when the body parsed to a JSON object
(the token endpoint returns an object with a csrf_token string field; an
absent field is none) and none when the body is not an object. -/
structure ApiResponse where
  status : Nat := 200
  headers : Headers := []
  json : Option (List (String × String)) := none
deriving DecidableEq, Repr

/-- The getUrl method (lines 170 to 185): an explicit url string is returned
as is; otherwise the per-call host falls back to the instance host under
JavaScript truthiness, one trailing slash is stripped from the host, one
leading slash from the endpoint (which defaults to the empty string), and
the parts are joined as protocol, two slashes, host, slash, endpoint. -/
def getUrl (s : ClientState) (inputHost : Option String) (endpoint : Option String)
    (url : Option String) : String :=
  match url with
  | some u => u
  | none =>
    let ep := endpoint.getD ""
    let host := jsOrStr inputHost s.host
    let cleanHost := if lastCharIsSlash host then host.dropRight 1 else host
    let cleanEp := if firstCharIsSlash ep then ep.drop 1 else ep
    s.protocol ++ "//" ++ cleanHost ++ "/" ++ cleanEp

/-- The rejection message installed by the constructor when no initial token
is supplied (lines 52 to 57), a template literal whose interpolated part is
the login URL computed by getUrl with endpoint /login. -/
def noTokenMessage (s : ClientState) : String :=
  "SupersetClient has no CSRF token, ensure it is initialized or\n      try logging into the Superset instance at "
    ++ getUrl s none (some "/login") none

/-- The constructor (lines 36 to 63).  Returns the initial client state
together with the settled outcome of the promise stored in the csrfPromise
field: a rejection carrying the no-token message when no initial token is
supplied, and a resolution with the token (with the X-CSRFToken header
merged) when one is, the empty string included.  The state allocates promise
identifier 0 for this initial promise. -/
def constructClient (cfg : ClientConfig) : ClientState × Except ErrPayload (Option String) :=
  let s0 : ClientState :=
    { headers := cfg.headers
      host := cfg.host.getD "localhost"
      mode := cfg.mode.getD "same-origin"
      timeout := cfg.timeout
      protocol := cfg.protocol.getD "http:"
      credentials := cfg.credentials
      csrfToken := cfg.csrfToken
      csrfPromiseId := 0
      nextPromiseId := 1 }
  match cfg.csrfToken with
  | some t => ({ s0 with headers := setHeader s0.headers "X-CSRFToken" t }, .ok (some t))
  | none => (s0, .error (.errorObj (noTokenMessage s0)))

/-- The isAuthenticated method (lines 73 to 76): the token is neither null
nor undefined; the empty string is a defined value and counts. -/
def isAuthenticated (s : ClientState) : Bool := s.csrfToken.isSome

/-- The request issued to the fixed token endpoint by getCSRFToken
(lines 143 to 151). -/
def tokenFetchRequest (s : ClientState) : CallApiArgs :=
  { credentials := s.credentials
    headers := s.headers
    method := "GET"
    mode := s.mode
    timeout := s.timeout
    url := getUrl s none (some "superset/csrf_token/") none }

/-- The synchronous phase of getCSRFToken (lines 138 to 151): the current
token is cleared to undefined, a fresh promise identifier is allocated and
stored in the csrfPromise field, and the token-endpoint request is issued.
All of this happens in one synchronous run with no suspension point, so no
other client operation can observe an intermediate state. -/
def getCSRFToken_start (s : ClientState) : ClientState × CallApiArgs :=
  let s1 : ClientState := { s with csrfToken := none }
  ({ s1 with csrfPromiseId := s1.nextPromiseId, nextPromiseId := s1.nextPromiseId + 1 },
    tokenFetchRequest s1)

/-- The state mutation performed by the fulfilment callback of the token
fetch (lines 153 to 158): when the parsed body is an object, its csrf_token
field becomes the current token and, when that field is a string, the
X-CSRFToken header is merged; a non-object body leaves the state alone. -/
def settleState (s : ClientState) (resp : ApiResponse) : ClientState :=
  match resp.json with
  | some fields =>
    let tok := getHeader fields "csrf_token"
    let s2 : ClientState := { s with csrfToken := tok }
    match tok with
    | some t => { s2 with headers := setHeader s2.headers "X-CSRFToken" t }
    | none => s2
  | none => s

/-- The continuation of getCSRFToken (lines 152 to 165), applied to the
settled outcome of the transport call.  A transport rejection passes through
unchanged, the then-callback having no rejection handler.  On fulfilment the
state mutation of settleState runs; then, if the client is still not
authenticated, the promise rejects with an object literal carrying the fixed
failure message, else it resolves with the current token. -/
def getCSRFToken_settle (s : ClientState) (result : Except ErrPayload ApiResponse) :
    ClientState × Except ErrPayload (Option String) :=
  match result with
  | .error e => (s, .error e)
  | .ok resp =>
    let s1 := settleState s resp
    if isAuthenticated s1 then (s1, .ok s1.csrfToken)
    else (s1, .error (.errorObj "Failed to fetch CSRF token"))

/-- The init method (lines 65 to 71): when already authenticated and not
forced, the existing promise is returned with no state change and no fetch;
otherwise getCSRFToken runs and its fresh promise is returned.  The result
is the new state, the identifier of the returned promise, and the token
fetch issued, if any. -/
def init (s : ClientState) (force : Bool) : ClientState × Nat × Option CallApiArgs :=
  if isAuthenticated s && !force then (s, s.csrfPromiseId, none)
  else
    let p := getCSRFToken_start s
    (p.1, p.1.csrfPromiseId, some p.2)

/-- The ensureAuth method (lines 134 to 136): returns the current value of
the csrfPromise field, unchanged. -/
def ensureAuth (s : ClientState) : Nat := s.csrfPromiseId

/-- The synchronous phase of get (lines 78 to 103): it only reads the
current authentication promise via ensureAuth and suspends on it, mutating
nothing and issuing no request. -/
def get_sync (s : ClientState) : ClientState × Nat := (s, ensureAuth s)

/-- The synchronous phase of post (lines 105 to 132), identical to that of
get. -/
def post_sync (s : ClientState) : ClientState × Nat := (s, ensureAuth s)

/-- The transport request built inside the fulfilment callback of get:
per-request headers override instance headers, credentials, mode and
timeout fall back to the instance values under JavaScript truthiness, and
the url is resolved by getUrl. -/
def buildGetCall (s : ClientState) (r : RequestConfig) : CallApiArgs :=
  { body := r.body
    credentials := jsOrOpt r.credentials s.credentials
    headers := mergeHeaders s.headers r.headers
    method := "GET"
    mode := jsOrStr r.mode s.mode
    parseMethod := r.parseMethod
    signal := r.signal
    timeout := jsOrNat r.timeout s.timeout
    url := getUrl s r.host r.endpoint r.url }

/-- The transport request built inside the fulfilment callback of post:
like buildGetCall but with method POST, a payload and a stringify flag, and
no body field. -/
def buildPostCall (s : ClientState) (r : RequestConfig) : CallApiArgs :=
  { credentials := jsOrOpt r.credentials s.credentials
    headers := mergeHeaders s.headers r.headers
    method := "POST"
    mode := jsOrStr r.mode s.mode
    parseMethod := r.parseMethod
    signal := r.signal
    stringify := r.stringify
    timeout := jsOrNat r.timeout s.timeout
    postPayload := r.postPayload
    url := getUrl s r.host r.endpoint r.url }

/-- The continuation of get, applied to the settled outcome of the
authentication promise it awaited: a rejection is propagated as the
rejection of the promise returned by get, with no transport call; a
fulfilment leads to exactly one transport call to the business endpoint. -/
def get_onAuth (s : ClientState) (r : RequestConfig)
    (auth : Except ErrPayload (Option String)) : Except ErrPayload CallApiArgs :=
  match auth with
  | .error e => .error e
  | .ok _ => .ok (buildGetCall s r)

/-- The continuation of post, applied to the settled outcome of the
authentication promise it awaited. -/
def post_onAuth (s : ClientState) (r : RequestConfig)
    (auth : Except ErrPayload (Option String)) : Except ErrPayload CallApiArgs :=
  match auth with
  | .error e => .error e
  | .ok _ => .ok (buildPostCall s r)

/-- The business-endpoint transport calls an outcome of get or post gives
rise to: none on rejection, exactly the built request on fulfilment. -/
def businessCalls (r : Except ErrPayload CallApiArgs) : List CallApiArgs :=
  match r with
  | .error _ => []
  | .ok a => [a]

/-- The number of token fetches issued by one init call. -/
def fetchCount (r : ClientState × Nat × Option CallApiArgs) : Nat :=
  match r.2.2 with
  | some _ => 1
  | none => 0

/-- Outcome of a registry entry point: a synchronous throw or a value. -/
inductive RegResult (α : Type) where
  | threw (msg : String)
  | ok (a : α)
deriving DecidableEq, Repr

/-- The message of the error thrown by hasInstance (lines 190 to 196). -/
def configureErrorMsg : String :=
  "You must call SupersetClient.configure(...) before calling other methods"

/-- The module-level singleton slot (line 188): at most one configured
client. -/
abbrev RegistryState := Option ClientState

/-- The initial registry state, before any configure call: the slot is
undefined. -/
def registryInitial : RegistryState := none

/-- The configure entry point (lines 199 to 203): constructs a new client,
replacing any prior instance, and returns it. -/
def reg_configure (_r : RegistryState) (cfg : ClientConfig) : RegistryState × ClientState :=
  ((constructClient cfg).1, (constructClient cfg).1)

/-- The reset entry point (lines 209 to 211): discards the instance. -/
def reg_reset (_r : RegistryState) : RegistryState := none

/-- The registry get entry point (line 204): throws when no instance is
configured, else forwards to the instance method. -/
def reg_get (r : RegistryState) (req : RequestConfig) : RegResult (ClientState × Nat) :=
  match r with
  | none => .threw configureErrorMsg
  | some c =>
    let _ := req
    .ok (get_sync c)

/-- The registry post entry point (line 207). -/
def reg_post (r : RegistryState) (req : RequestConfig) : RegResult (ClientState × Nat) :=
  match r with
  | none => .threw configureErrorMsg
  | some c =>
    let _ := req
    .ok (post_sync c)

/-- The registry init entry point (line 205); an omitted force argument is
undefined and the instance default false applies. -/
def reg_init (r : RegistryState) (force : Option Bool) :
    RegResult (ClientState × Nat × Option CallApiArgs) :=
  match r with
  | none => .threw configureErrorMsg
  | some c => .ok (init c (force.getD false))

/-- The registry isAuthenticated entry point (line 206). -/
def reg_isAuthenticated (r : RegistryState) : RegResult Bool :=
  match r with
  | none => .threw configureErrorMsg
  | some c => .ok (isAuthenticated c)

/-- The registry reAuthenticate entry point (line 208): init with force
true. -/
def reg_reAuthenticate (r : RegistryState) :
    RegResult (ClientState × Nat × Option CallApiArgs) :=
  match r with
  | none => .threw configureErrorMsg
  | some c => .ok (init c true)

/-- Spec-side description of the host normalisation: exactly one trailing
slash removed when present. -/
def stripOneTrailingSlash (h : String) : String :=
  if lastCharIsSlash h then h.dropRight 1 else h

/-- Spec-side description of the endpoint normalisation: exactly one leading
slash removed when present. -/
def stripOneLeadingSlash (e : String) : String :=
  if firstCharIsSlash e then e.drop 1 else e

/-- The header half of the documented invariant: whenever a token is known,
the merged headers carry it in the X-CSRFToken entry. -/
def headersReflectToken (s : ClientState) : Prop :=
  ∀ t, s.csrfToken = some t → getHeader s.headers "X-CSRFToken" = some t

/-- The documented client invariant: headers reflect the latest known token,
and the csrfPromise field refers to a promise that was actually allocated
(by the constructor or a past or in-flight fetch), the model's rendering of
the field being non-null. -/
def clientInv (s : ClientState) : Prop :=
  headersReflectToken s ∧ s.csrfPromiseId < s.nextPromiseId

/-- Updating one key of a headers object and reading it back yields the
written value. -/
theorem getHeader_setHeader (hs : Headers) (k v : String) :
    getHeader (setHeader hs k v) k = some v := by
  induction hs with
  | nil => simp [getHeader, setHeader, mergeHeaders]
  | cons h t ih =>
    by_cases hk : h.1 = k
    · simpa [getHeader, setHeader, mergeHeaders, hk] using ih
    · simpa [getHeader, setHeader, mergeHeaders, List.find?, hk, Ne.symm hk] using ih

/-- C6: isAuthenticated is true exactly when the current token is a defined
value; the empty string counts as defined, absence does not. -/
theorem claim_C6 :
    (∀ s : ClientState, isAuthenticated s = true ↔ ∃ t, s.csrfToken = some t) ∧
    isAuthenticated { csrfToken := some "" } = true ∧
    isAuthenticated { csrfToken := none } = false := by
  refine ⟨fun s => ?_, by decide, by decide⟩
  simp [isAuthenticated, Option.isSome_iff_exists]

/-- C8: getUrl returns an explicit url verbatim, ignoring host and endpoint;
otherwise it joins the protocol, two slashes, the host (per-call override or
instance default) with one trailing slash stripped, a slash, and the
endpoint with one leading slash stripped; on host example.com/ with endpoint
/api/x under protocol http: it yields http://example.com/api/x. -/
theorem claim_C8 (s : ClientState) (ih : Option String) (ep u hOv : String)
    (hne : hOv ≠ "") :
    getUrl s ih (some ep) (some u) = u ∧
    getUrl s none (some ep) none =
      s.protocol ++ "//" ++ stripOneTrailingSlash s.host ++ "/" ++ stripOneLeadingSlash ep ∧
    getUrl s (some hOv) (some ep) none =
      s.protocol ++ "//" ++ stripOneTrailingSlash hOv ++ "/" ++ stripOneLeadingSlash ep ∧
    getUrl { protocol := "http:", host := "example.com/" } none (some "/api/x") none =
      "http://example.com/api/x" := by
  refine ⟨rfl, rfl, ?_, by decide⟩
  simp [getUrl, jsOrStr, hne, stripOneTrailingSlash, stripOneLeadingSlash]

/-- Witness for C8 at concrete inputs. -/
theorem claim_C8_witness :
    ("other.example.org" : String) ≠ "" ∧
    (getUrl { } (some "x") (some "/e") (some "http://u/v") = "http://u/v" ∧
      getUrl { } none (some "/e") none =
        ({ } : ClientState).protocol ++ "//" ++ stripOneTrailingSlash ({ } : ClientState).host
          ++ "/" ++ stripOneLeadingSlash "/e" ∧
      getUrl { } (some "other.example.org") (some "/e") none =
        ({ } : ClientState).protocol ++ "//" ++ stripOneTrailingSlash "other.example.org"
          ++ "/" ++ stripOneLeadingSlash "/e" ∧
      getUrl { protocol := "http:", host := "example.com/" } none (some "/api/x") none =
        "http://example.com/api/x") :=
  ⟨by decide, claim_C8 { } (some "x") "/e" "http://u/v" "other.example.org" (by decide)⟩

/-- C1: whenever the authentication promise awaited by get or post is
rejected, the promise returned by get or post rejects with the same payload
and no transport call to the business endpoint is made; in particular a
client constructed with no initial token, before any init or fetch, has its
authentication promise rejected with the no-CSRF-token message, so get and
post reject with that message and make no business call. -/
theorem claim_C1 :
    (∀ (s : ClientState) (r : RequestConfig) (e : ErrPayload),
        get_onAuth s r (.error e) = .error e ∧
        post_onAuth s r (.error e) = .error e ∧
        businessCalls (get_onAuth s r (.error e)) = [] ∧
        businessCalls (post_onAuth s r (.error e)) = []) ∧
    (∀ (cfg : ClientConfig) (r : RequestConfig), cfg.csrfToken = none →
        (constructClient cfg).2 =
          .error (.errorObj (noTokenMessage (constructClient cfg).1)) ∧
        ensureAuth (constructClient cfg).1 = (constructClient cfg).1.csrfPromiseId ∧
        get_onAuth (constructClient cfg).1 r (constructClient cfg).2 =
          .error (.errorObj (noTokenMessage (constructClient cfg).1)) ∧
        post_onAuth (constructClient cfg).1 r (constructClient cfg).2 =
          .error (.errorObj (noTokenMessage (constructClient cfg).1)) ∧
        businessCalls (get_onAuth (constructClient cfg).1 r (constructClient cfg).2) = [] ∧
        businessCalls (post_onAuth (constructClient cfg).1 r (constructClient cfg).2) = [] ∧
        (∃ tail, noTokenMessage (constructClient cfg).1 =
          "SupersetClient has no CSRF token, ensure it is initialized or\n      try logging into the Superset instance at "
            ++ tail)) := by
  constructor
  · intro s r e
    exact ⟨rfl, rfl, rfl, rfl⟩
  · intro cfg r h
    have h2 : (constructClient cfg).2 =
        .error (.errorObj (noTokenMessage (constructClient cfg).1)) := by
      simp [constructClient, h]
    refine ⟨h2, rfl, ?_, ?_, ?_, ?_, ⟨_, rfl⟩⟩
    · rw [h2]; rfl
    · rw [h2]; rfl
    · rw [h2]; rfl
    · rw [h2]; rfl

/-- Witness for C1: the freshly constructed tokenless client rejects get and
post with the no-CSRF-token message and makes no business call. -/
theorem claim_C1_witness :
    ({ } : ClientConfig).csrfToken = none ∧
    ((constructClient { }).2 =
        .error (.errorObj (noTokenMessage (constructClient { }).1)) ∧
      ensureAuth (constructClient { }).1 = (constructClient { }).1.csrfPromiseId ∧
      get_onAuth (constructClient { }).1 { } (constructClient { }).2 =
        .error (.errorObj (noTokenMessage (constructClient { }).1)) ∧
      post_onAuth (constructClient { }).1 { } (constructClient { }).2 =
        .error (.errorObj (noTokenMessage (constructClient { }).1)) ∧
      businessCalls (get_onAuth (constructClient { }).1 { } (constructClient { }).2) = [] ∧
      businessCalls (post_onAuth (constructClient { }).1 { } (constructClient { }).2) = [] ∧
      (∃ tail, noTokenMessage (constructClient { }).1 =
        "SupersetClient has no CSRF token, ensure it is initialized or\n      try logging into the Superset instance at "
          ++ tail)) :=
  ⟨rfl, claim_C1.2 { } { } rfl⟩

/-- Claim C2: the synchronous phase of getCSRFToken clears the current token
to absent and replaces the pending-promise field with the freshly allocated
promise of this fetch; the issued request is the token fetch built from the
token-cleared state; after the start, ensureAuth and the synchronous phases
of get and post all read exactly that in-flight promise, mutate nothing and
allocate no further promise, so no second fetch is raced and the business
request can only arise in the continuation applied to the settled
outcome. -/
theorem claim_C2 (s : ClientState) (h : s.csrfPromiseId < s.nextPromiseId) :
    (getCSRFToken_start s).1.csrfToken = none ∧
    (getCSRFToken_start s).1.csrfPromiseId = s.nextPromiseId ∧
    (getCSRFToken_start s).1.nextPromiseId = s.nextPromiseId + 1 ∧
    (getCSRFToken_start s).1.csrfPromiseId ≠ s.csrfPromiseId ∧
    ensureAuth (getCSRFToken_start s).1 = (getCSRFToken_start s).1.csrfPromiseId ∧
    get_sync (getCSRFToken_start s).1 =
      ((getCSRFToken_start s).1, (getCSRFToken_start s).1.csrfPromiseId) ∧
    post_sync (getCSRFToken_start s).1 =
      ((getCSRFToken_start s).1, (getCSRFToken_start s).1.csrfPromiseId) ∧
    (getCSRFToken_start s).2 = tokenFetchRequest { s with csrfToken := none } := by
  refine ⟨rfl, rfl, rfl, ?_, rfl, rfl, rfl, rfl⟩
  simp only [getCSRFToken_start]
  omega

/-- Witness for C2 at the default client state. -/
theorem claim_C2_witness :
    ({ } : ClientState).csrfPromiseId < ({ } : ClientState).nextPromiseId ∧
    ((getCSRFToken_start { }).1.csrfToken = none ∧
      (getCSRFToken_start { }).1.csrfPromiseId = ({ } : ClientState).nextPromiseId ∧
      (getCSRFToken_start { }).1.nextPromiseId = ({ } : ClientState).nextPromiseId + 1 ∧
      (getCSRFToken_start { }).1.csrfPromiseId ≠ ({ } : ClientState).csrfPromiseId ∧
      ensureAuth (getCSRFToken_start { }).1 = (getCSRFToken_start { }).1.csrfPromiseId ∧
      get_sync (getCSRFToken_start { }).1 =
        ((getCSRFToken_start { }).1, (getCSRFToken_start { }).1.csrfPromiseId) ∧
      post_sync (getCSRFToken_start { }).1 =
        ((getCSRFToken_start { }).1, (getCSRFToken_start { }).1.csrfPromiseId) ∧
      (getCSRFToken_start { }).2 =
        tokenFetchRequest { ({ } : ClientState) with csrfToken := none }) :=
  ⟨by decide, claim_C2 { } (by decide)⟩

/-- Counterexample to C3 as stated: a token fetch that fails at the
transport level leaves the client unauthenticated, yet the returned promise
rejects with the transport's own payload passed through unchanged, which
need not be an object literal with an error field. -/
theorem claim_C3_counterexample :
    isAuthenticated (getCSRFToken_settle { } (.error (.other "NetworkError"))).1 = false ∧
    (getCSRFToken_settle { } (.error (.other "NetworkError"))).2 =
      .error (.other "NetworkError") ∧
    (ErrPayload.other "NetworkError").isErrorObj = false :=
  ⟨rfl, rfl, rfl⟩

/-- Claim C3 (amended): a transport-level rejection of the token fetch
passes through unchanged as the rejection of the returned promise; when the
transport call resolves, the returned promise rejects with an object literal
carrying the fixed failure message if the client is still not authenticated
after processing the response, and otherwise resolves with the current
token; and when the response body is a JSON object whose csrf_token field is
a string, the X-CSRFToken header is merged into the client's headers.  No
case is a synchronous throw: every outcome is a settled promise value. -/
theorem claim_C3 (s : ClientState) (resp : ApiResponse) (e : ErrPayload)
    (fields : List (String × String)) (t : String) :
    getCSRFToken_settle s (.error e) = (s, .error e) ∧
    (getCSRFToken_settle s (.ok resp)).1 = settleState s resp ∧
    (isAuthenticated (settleState s resp) = false →
      (getCSRFToken_settle s (.ok resp)).2 =
        .error (.errorObj "Failed to fetch CSRF token")) ∧
    (isAuthenticated (settleState s resp) = true →
      (getCSRFToken_settle s (.ok resp)).2 = .ok (settleState s resp).csrfToken) ∧
    (resp.json = some fields → getHeader fields "csrf_token" = some t →
      getHeader (settleState s resp).headers "X-CSRFToken" = some t) := by
  refine ⟨rfl, ?_, ?_, ?_, ?_⟩
  · by_cases h1 : isAuthenticated (settleState s resp) <;>
      simp [getCSRFToken_settle, h1]
  · intro h1
    simp [getCSRFToken_settle, h1]
  · intro h1
    simp [getCSRFToken_settle, h1]
  · intro hj ht
    simp [settleState, hj, ht, getHeader_setHeader]

/-- Witness for C3 at concrete inputs: a response carrying a token string
resolves with it and merges the header, and a response with a non-object
body leaves the default client unauthenticated and rejects with the fixed
failure message. -/
theorem claim_C3_witness :
    isAuthenticated (settleState { } { json := some [("csrf_token", "tok123")] }) = true ∧
    (getCSRFToken_settle { } (.ok { json := some [("csrf_token", "tok123")] })).2 =
      .ok (settleState { } { json := some [("csrf_token", "tok123")] }).csrfToken ∧
    ({ json := some [("csrf_token", "tok123")] } : ApiResponse).json =
      some [("csrf_token", "tok123")] ∧
    getHeader [("csrf_token", "tok123")] "csrf_token" = some "tok123" ∧
    getHeader (settleState { } { json := some [("csrf_token", "tok123")] }).headers
      "X-CSRFToken" = some "tok123" ∧
    isAuthenticated (settleState { } { }) = false ∧
    (getCSRFToken_settle { } (.ok { })).2 =
      .error (.errorObj "Failed to fetch CSRF token") :=
  ⟨by decide,
    (claim_C3 { } { json := some [("csrf_token", "tok123")] } (.errorObj "x")
        [("csrf_token", "tok123")] "tok123").2.2.2.1 (by decide),
    rfl, by decide,
    (claim_C3 { } { json := some [("csrf_token", "tok123")] } (.errorObj "x")
        [("csrf_token", "tok123")] "tok123").2.2.2.2 rfl rfl,
    by decide,
    (claim_C3 { } { } (.errorObj "x") [] "t").2.2.1 (by decide)⟩

/-- Claim C4: a config supplying an initial token string (the empty string
included) yields, immediately after construction, an authenticated client
whose headers carry that token under X-CSRFToken and whose pending promise
is resolved with the token, so init with no force returns that same settled
promise with no state change and no token fetch; a config with no token
yields a pending promise pre-set to a rejection whose message ends with the
login URL. -/
theorem claim_C4 :
    (∀ (cfg : ClientConfig) (t : String), cfg.csrfToken = some t →
        isAuthenticated (constructClient cfg).1 = true ∧
        (constructClient cfg).1.csrfToken = some t ∧
        getHeader (constructClient cfg).1.headers "X-CSRFToken" = some t ∧
        (constructClient cfg).2 = .ok (some t) ∧
        init (constructClient cfg).1 false =
          ((constructClient cfg).1, (constructClient cfg).1.csrfPromiseId, none)) ∧
    (∀ cfg : ClientConfig, cfg.csrfToken = none →
        (constructClient cfg).2 =
          .error (.errorObj (noTokenMessage (constructClient cfg).1)) ∧
        (∃ pre, noTokenMessage (constructClient cfg).1 =
          pre ++ getUrl (constructClient cfg).1 none (some "/login") none)) := by
  constructor
  · intro cfg t h
    have h1 : (constructClient cfg).1.csrfToken = some t := by
      simp [constructClient, h]
    have hA : isAuthenticated (constructClient cfg).1 = true := by
      simp [isAuthenticated, h1]
    refine ⟨hA, h1, ?_, ?_, ?_⟩
    · simp [constructClient, h, getHeader_setHeader]
    · simp [constructClient, h]
    · simp [init, hA]
  · intro cfg h
    have h2 : (constructClient cfg).2 =
        .error (.errorObj (noTokenMessage (constructClient cfg).1)) := by
      simp [constructClient, h]
    exact ⟨h2, _, rfl⟩

/-- Witness for C4: a client constructed with the empty-string token is
authenticated with the header set and a resolved promise, and the default
tokenless config produces the rejected promise whose message carries the
login URL. -/
theorem claim_C4_witness :
    ({ csrfToken := some "" } : ClientConfig).csrfToken = some "" ∧
    (isAuthenticated (constructClient { csrfToken := some "" }).1 = true ∧
      (constructClient { csrfToken := some "" }).1.csrfToken = some "" ∧
      getHeader (constructClient { csrfToken := some "" }).1.headers "X-CSRFToken" =
        some "" ∧
      (constructClient { csrfToken := some "" }).2 = .ok (some "") ∧
      init (constructClient { csrfToken := some "" }).1 false =
        ((constructClient { csrfToken := some "" }).1,
          (constructClient { csrfToken := some "" }).1.csrfPromiseId, none)) ∧
    ({ } : ClientConfig).csrfToken = none ∧
    ((constructClient { }).2 =
        .error (.errorObj (noTokenMessage (constructClient { }).1)) ∧
      (∃ pre, noTokenMessage (constructClient { }).1 =
        pre ++ getUrl (constructClient { }).1 none (some "/login") none)) :=
  ⟨rfl, claim_C4.1 { csrfToken := some "" } "" rfl, rfl, claim_C4.2 { } rfl⟩

/-- Claim C5: init with no force on an authenticated client returns the
existing pending promise with the state unchanged and no token fetch, so two
such calls trigger at most one fetch in total; init with force, and the
registry reAuthenticate entry point, always run getCSRFToken and so perform
exactly one new token fetch regardless of the current authentication
state. -/
theorem claim_C5 (s s2 : ClientState) (h : isAuthenticated s = true) :
    init s false = (s, s.csrfPromiseId, none) ∧
    fetchCount (init s false) + fetchCount (init (init s false).1 false) ≤ 1 ∧
    (fetchCount (init s2 true) = 1 ∧
      (init s2 true).1 = (getCSRFToken_start s2).1 ∧
      (init s2 true).2.1 = (getCSRFToken_start s2).1.csrfPromiseId ∧
      (init s2 true).2.2 = some (getCSRFToken_start s2).2) ∧
    reg_reAuthenticate (some s2) = .ok (init s2 true) := by
  have h0 : init s false = (s, s.csrfPromiseId, none) := by simp [init, h]
  refine ⟨h0, ?_, ⟨?_, ?_, ?_, ?_⟩, rfl⟩
  · simp [fetchCount, h0]
  · simp [init, fetchCount]
  · simp [init]
  · simp [init]
  · simp [init]

/-- Witness for C5 at an authenticated client with the empty-string token
and a default second client. -/
theorem claim_C5_witness :
    isAuthenticated { csrfToken := some "" } = true ∧
    (init { csrfToken := some "" } false =
        ({ csrfToken := some "" }, ({ csrfToken := some "" } : ClientState).csrfPromiseId,
          none) ∧
      fetchCount (init { csrfToken := some "" } false) +
        fetchCount (init (init { csrfToken := some "" } false).1 false) ≤ 1 ∧
      (fetchCount (init { } true) = 1 ∧
        (init { } true).1 = (getCSRFToken_start { }).1 ∧
        (init { } true).2.1 = (getCSRFToken_start { }).1.csrfPromiseId ∧
        (init { } true).2.2 = some (getCSRFToken_start { }).2) ∧
      reg_reAuthenticate (some { }) = .ok (init { } true)) :=
  ⟨by decide, claim_C5 { csrfToken := some "" } { } (by decide)⟩

/-- Claim C7: the documented invariant holds after construction and is
preserved by init, by both phases of a token fetch, and by the synchronous
phases of get and post, which mutate nothing: whenever a token is known the
merged headers carry it under X-CSRFToken, and the pending-promise field
always refers to an allocated promise. -/
theorem claim_C7 (cfg : ClientConfig) (s : ClientState) (f : Bool)
    (r : Except ErrPayload ApiResponse) (h : clientInv s) :
    clientInv (constructClient cfg).1 ∧
    clientInv (init s f).1 ∧
    clientInv (getCSRFToken_start s).1 ∧
    clientInv (getCSRFToken_settle s r).1 ∧
    (get_sync s).1 = s ∧
    (post_sync s).1 = s := by
  have hstart : clientInv (getCSRFToken_start s).1 := by
    constructor
    · intro t ht
      simp [getCSRFToken_start] at ht
    · simp [getCSRFToken_start]
  refine ⟨?_, ?_, hstart, ?_, rfl, rfl⟩
  · cases hc : cfg.csrfToken with
    | none =>
      constructor
      · intro t ht
        simp [constructClient, hc] at ht
      · simp [constructClient, hc]
    | some t0 =>
      constructor
      · intro t ht
        have he : (constructClient cfg).1.csrfToken = some t0 := by
          simp [constructClient, hc]
        rw [he] at ht
        cases ht
        have hh : (constructClient cfg).1.headers =
            setHeader cfg.headers "X-CSRFToken" t0 := by
          simp [constructClient, hc]
        rw [hh]
        exact getHeader_setHeader _ _ _
      · simp [constructClient, hc]
  · unfold init
    split
    · exact h
    · exact hstart
  · cases r with
    | error e => exact h
    | ok resp =>
      have hs1 : (getCSRFToken_settle s (.ok resp)).1 = settleState s resp := by
        by_cases h1 : isAuthenticated (settleState s resp) <;>
          simp [getCSRFToken_settle, h1]
      rw [hs1]
      cases hj : resp.json with
      | none =>
        simpa [settleState, hj] using h
      | some fields =>
        cases ht : getHeader fields "csrf_token" with
        | none =>
          constructor
          · intro t hcontr
            simp [settleState, hj, ht] at hcontr
          · simpa [settleState, hj, ht] using h.2
        | some t0 =>
          constructor
          · intro t hts
            have : t = t0 := by
              have : (settleState s resp).csrfToken = some t0 := by
                simp [settleState, hj, ht]
              rw [this] at hts
              cases hts
              rfl
            subst this
            have hh : (settleState s resp).headers =
                setHeader s.headers "X-CSRFToken" t := by
              simp [settleState, hj, ht]
            rw [hh]
            exact getHeader_setHeader _ _ _
          · simpa [settleState, hj, ht] using h.2

/-- Witness for C7 at the default state, which satisfies the invariant. -/
theorem claim_C7_witness :
    clientInv { } ∧
    (clientInv (constructClient { }).1 ∧
      clientInv (init { } false).1 ∧
      clientInv (getCSRFToken_start { }).1 ∧
      clientInv (getCSRFToken_settle { } (.error (.errorObj "x"))).1 ∧
      (get_sync { }).1 = { } ∧
      (post_sync { }).1 = { }) := by
  have hINV : clientInv { } := ⟨fun t ht => Option.noConfusion ht, by decide⟩
  exact ⟨hINV, claim_C7 { } { } false (.error (.errorObj "x")) hINV⟩

/-- Claim C9: every registry entry point other than configure and reset
throws the configuration error when no instance is held, both in the initial
state and after any reset, and otherwise forwards to the corresponding
method of the held instance. -/
theorem claim_C9 :
    (∀ req : RequestConfig,
        reg_get registryInitial req = .threw configureErrorMsg ∧
        reg_post registryInitial req = .threw configureErrorMsg) ∧
    (∀ f : Option Bool, reg_init registryInitial f = .threw configureErrorMsg) ∧
    reg_isAuthenticated registryInitial = .threw configureErrorMsg ∧
    reg_reAuthenticate registryInitial = .threw configureErrorMsg ∧
    (∀ (w : RegistryState) (req : RequestConfig) (f : Option Bool),
        reg_get (reg_reset w) req = .threw configureErrorMsg ∧
        reg_post (reg_reset w) req = .threw configureErrorMsg ∧
        reg_init (reg_reset w) f = .threw configureErrorMsg ∧
        reg_isAuthenticated (reg_reset w) = .threw configureErrorMsg ∧
        reg_reAuthenticate (reg_reset w) = .threw configureErrorMsg) ∧
    (∀ (c : ClientState) (req : RequestConfig) (f : Option Bool),
        reg_get (some c) req = .ok (get_sync c) ∧
        reg_post (some c) req = .ok (post_sync c) ∧
        reg_init (some c) f = .ok (init c (f.getD false)) ∧
        reg_isAuthenticated (some c) = .ok (isAuthenticated c) ∧
        reg_reAuthenticate (some c) = .ok (init c true)) :=
  ⟨fun _ => ⟨rfl, rfl⟩, fun _ => rfl, rfl, rfl,
    fun _ _ _ => ⟨rfl, rfl, rfl, rfl, rfl⟩,
    fun _ _ _ => ⟨rfl, rfl, rfl, rfl, rfl⟩⟩

/-- Claim C10: construction with the empty config succeeds and fills the
undocumented defaults, protocol http:, host localhost, mode same-origin,
empty headers, with credentials, timeout and token left undefined; for any
config the omitted fields individually receive those defaults, and for a
tokenless config the client's headers equal the supplied headers value, the
spread having copied them so the client is independent of the caller's
object. -/
theorem claim_C10 (cfg : ClientConfig) (h : cfg.csrfToken = none) :
    ((constructClient { }).1.protocol = "http:" ∧
      (constructClient { }).1.host = "localhost" ∧
      (constructClient { }).1.mode = "same-origin" ∧
      (constructClient { }).1.headers = [] ∧
      (constructClient { }).1.credentials = none ∧
      (constructClient { }).1.timeout = none ∧
      (constructClient { }).1.csrfToken = none) ∧
    (∀ c2 : ClientConfig,
        (constructClient c2).1.protocol = c2.protocol.getD "http:" ∧
        (constructClient c2).1.host = c2.host.getD "localhost" ∧
        (constructClient c2).1.mode = c2.mode.getD "same-origin" ∧
        (constructClient c2).1.credentials = c2.credentials ∧
        (constructClient c2).1.timeout = c2.timeout ∧
        (constructClient c2).1.csrfToken = c2.csrfToken) ∧
    (constructClient cfg).1.headers = cfg.headers := by
  refine ⟨by decide, ?_, by simp [constructClient, h]⟩
  intro c2
  cases hc : c2.csrfToken <;> simp [constructClient, hc]

/-- Witness for C10 at a config carrying one header entry. -/
theorem claim_C10_witness :
    ({ headers := [("Accept", "application/json")] } : ClientConfig).csrfToken = none ∧
    (constructClient { headers := [("Accept", "application/json")] }).1.headers =
      ({ headers := [("Accept", "application/json")] } : ClientConfig).headers :=
  ⟨rfl, (claim_C10 { headers := [("Accept", "application/json")] } rfl).2.2⟩

end SupersetClientModel
